import Mathlib

/-!
# SmartDuplicateHunter — scanner core, shallow embedding

A shallow embedding of `src/scanner.py` (the scanning, filtering and
size-bucketing engine of SmartDuplicateHunter), together with theorems
settling the specification claims about it.

Modelling conventions:
* the filesystem seen by one scan is a finite immutable tree (`FSEntry`);
  a symlink to a directory is its own constructor because `pathlib`'s
  `Path.is_dir()` / `Path.is_file()` follow symlinks while the walker
  may want to distinguish them;
* Python `dict` (insertion ordered) becomes an association list;
  Python `set` becomes a list queried only through membership;
* byte sizes and timestamps are `Nat`;
* `Path` values are lists of path components from the scan root.
-/

namespace SDH

/-- Configuration for one scan (`ScanConfig` in `scanner.py`). -/
structure ScanConfig where
  include_extensions : List String
  exclude_directories : List String
  min_file_size : Nat
  max_file_size : Nat
  follow_symlinks : Bool := false
  ignore_hidden : Bool := true
  deriving Repr, DecidableEq

/-- Metadata captured for one accepted file (`FileInfo` in `scanner.py`). -/
structure FileInfo where
  path : List String
  size : Nat
  modified_time : Nat
  extension : String
  deriving Repr, DecidableEq

/-- Python `str.lower()`, character by character (all names involved are
ASCII, where `Char.toLower` and `str.lower` agree). -/
def pyLower (s : String) : String :=
  String.mk (s.data.map Char.toLower)

/-- Python `name.startswith('.')`: the first character is a dot. -/
def pyStartsWithDot (name : String) : Bool :=
  match name.data with
  | [] => false
  | c :: _ => c == '.'

/-- `PurePath.suffix` as implemented by `pathlib`: the substring from the
last dot `i` of the basename when `0 < i < len - 1`, otherwise empty. -/
def pySuffix (name : String) : String :=
  let cs := name.data
  let n := cs.length
  let j := cs.reverse.indexOf '.'
  if j < n then
    let i := n - 1 - j
    if 0 < i ∧ i < n - 1 then String.mk (cs.drop i) else ""
  else ""

/-- `FileScanner._should_include_file`, with the file's basename and its
statted byte size as inputs (the tree is immutable, so the stat never
fails and returns the file's one true size). -/
def shouldIncludeFile (cfg : ScanConfig) (name : String) (size : Nat) : Bool :=
  if !cfg.include_extensions.isEmpty
      && !(cfg.include_extensions.contains (pyLower (pySuffix name))) then
    false
  else if cfg.ignore_hidden && pyStartsWithDot name then
    false
  else if size < cfg.min_file_size || size > cfg.max_file_size then
    false
  else if size == 0 then
    false
  else
    true

/-- `FileScanner._should_include_directory`, on the directory basename. -/
def shouldIncludeDirectory (cfg : ScanConfig) (name : String) : Bool :=
  if cfg.exclude_directories.contains name then
    false
  else if cfg.ignore_hidden && pyStartsWithDot name then
    false
  else
    true

mutual
/-- A filesystem entry: a regular file, a directory, or a symbolic link
to a directory (carrying the target directory's children). -/
inductive FSEntry : Type where
  | file (name : String) (size : Nat) (mtime : Nat) : FSEntry
  | dir (name : String) (children : FSList) : FSEntry
  | symlinkDir (name : String) (children : FSList) : FSEntry
  deriving Repr, DecidableEq

/-- A directory listing, in `iterdir` order. -/
inductive FSList : Type where
  | nil : FSList
  | cons (e : FSEntry) (es : FSList) : FSList
  deriving Repr, DecidableEq
end

/-- Mutable scanner state: `files_by_size`, `total_files_found`,
`total_size_scanned` on the `FileScanner` object. -/
structure ScannerState where
  files_by_size : List (Nat × List FileInfo)
  total_files_found : Nat
  total_size_scanned : Nat
  deriving Repr, DecidableEq

/-- `defaultdict(list)` insertion: `files_by_size[size].append(fi)` —
append to the existing bucket, or create a new bucket at the end
(Python dicts keep key insertion order). -/
def addToBucket (m : List (Nat × List FileInfo)) (sz : Nat) (fi : FileInfo) :
    List (Nat × List FileInfo) :=
  match m with
  | [] => [(sz, [fi])]
  | (k, fs) :: rest =>
      if k = sz then (k, fs ++ [fi]) :: rest else (k, fs) :: addToBucket rest sz fi

/-- `FileScanner._process_file`: stat the file, build a `FileInfo`, insert
it into the size bucket and bump both counters. -/
def processFile (pref : List String) (name : String) (size mtime : Nat)
    (st : ScannerState) : ScannerState :=
  let fi : FileInfo :=
    { path := pref ++ [name], size := size, modified_time := mtime,
      extension := pyLower (pySuffix name) }
  { files_by_size := addToBucket st.files_by_size size fi,
    total_files_found := st.total_files_found + 1,
    total_size_scanned := st.total_size_scanned + size }

mutual
/-- One `iterdir` item inside `FileScanner._scan_recursive`. A
`symlinkDir` entry satisfies `item.is_dir()` (pathlib follows symlinks),
and the source never consults `config.follow_symlinks`, so it is handled
exactly like a directory. -/
def scanEntry (cfg : ScanConfig) (pref : List String) (st : ScannerState) :
    FSEntry → ScannerState
  | .file name size mtime =>
      if shouldIncludeFile cfg name size then processFile pref name size mtime st else st
  | .dir name children =>
      if shouldIncludeDirectory cfg name then
        scanChildren cfg (pref ++ [name]) st children
      else st
  | .symlinkDir name children =>
      if shouldIncludeDirectory cfg name then
        scanChildren cfg (pref ++ [name]) st children
      else st
termination_by structural e => e

/-- The `for item in directory_path.iterdir()` loop of
`FileScanner._scan_recursive`. -/
def scanChildren (cfg : ScanConfig) (pref : List String) (st : ScannerState) :
    FSList → ScannerState
  | .nil => st
  | .cons e es => scanChildren cfg pref (scanEntry cfg pref st e) es
termination_by structural es => es
end

/-- The fatal root-path errors of `scan_directory`:
`FileNotFoundError` and `NotADirectoryError`. -/
inductive ScanError : Type where
  | fileNotFound : ScanError
  | notADirectory : ScanError
  deriving Repr, DecidableEq

/-- `FileScanner.scan_directory`: validate the root (raising before any
traversal, state untouched), then reset the accumulator, walk the tree
and return the bucket mapping. `root = none` models a path that does not
exist; a `file` root exists but is not a directory; a `symlinkDir` root
passes `is_dir()` (pathlib follows symlinks). The first component of the
result is the scanner's state after the call. -/
def scanDirectory (cfg : ScanConfig) (st : ScannerState) (root : Option FSEntry) :
    ScannerState × Except ScanError (List (Nat × List FileInfo)) :=
  match root with
  | none => (st, .error .fileNotFound)
  | some (.file _ _ _) => (st, .error .notADirectory)
  | some (.dir name children) =>
      let st2 := scanChildren cfg [name] ⟨[], 0, 0⟩ children
      (st2, .ok st2.files_by_size)
  | some (.symlinkDir name children) =>
      let st2 := scanChildren cfg [name] ⟨[], 0, 0⟩ children
      (st2, .ok st2.files_by_size)

/-- `FileScanner.get_potential_duplicates`: keep only buckets with
strictly more than one record. -/
def getPotentialDuplicates (m : List (Nat × List FileInfo)) :
    List (Nat × List FileInfo) :=
  m.filter (fun p => p.2.length > 1)

/-- `total_potential_files` in `_print_scan_statistics`:
`sum(len(files) for files in potential_duplicates.values())`. -/
def totalPotentialFiles (m : List (Nat × List FileInfo)) : Nat :=
  ((getPotentialDuplicates m).map (fun p => p.2.length)).sum

/-- `total_potential_size` in `_print_scan_statistics`:
`sum(size * len(files) for size, files in potential_duplicates.items())`. -/
def totalPotentialSize (m : List (Nat × List FileInfo)) : Nat :=
  ((getPotentialDuplicates m).map (fun p => p.1 * p.2.length)).sum

/-! ## ConfigLoader (`FileScanner._load_config`) -/

/-- The values a `scanning:` section of the YAML source may supply; a
`none` field is a key absent from the document. Unknown extra keys are
ignored by the loader, so they are not modelled. -/
structure UserScanning where
  include_extensions : Option (List String)
  exclude_directories : Option (List String)
  min_file_size : Option Nat
  max_file_size : Option Nat
  deriving Repr, DecidableEq

/-- The three ways `_load_config` can see its configuration source:
no path given or the path does not exist; the file exists but loading or
parsing raises; or it parses to a document with a `scanning` section. -/
inductive ConfigSource : Type where
  | absent : ConfigSource
  | parseError : ConfigSource
  | parsed (u : UserScanning) : ConfigSource
  deriving Repr, DecidableEq

/-- The resolved top-level `scanning` options (`scanning_config` in
`_load_config`). -/
structure ScanningOptions where
  include_extensions : List String
  exclude_directories : List String
  min_file_size : Nat
  max_file_size : Nat
  deriving Repr, DecidableEq

/-- `default_config['scanning']` of `_load_config`, verbatim. -/
def defaultScanning : ScanningOptions :=
  { include_extensions :=
      [".jpg", ".jpeg", ".png", ".gif", ".bmp", ".tiff",
       ".mp4", ".avi", ".mkv", ".mov", ".wmv", ".flv",
       ".mp3", ".wav", ".flac", ".aac", ".ogg",
       ".pdf", ".doc", ".docx", ".txt", ".rtf",
       ".zip", ".rar", ".7z", ".tar", ".gz"],
    exclude_directories :=
      ["__pycache__", ".git", ".svn", "node_modules",
       ".vscode", ".idea", "venv", "env",
       "System Volume Information", "$RECYCLE.BIN"],
    min_file_size := 1024,
    max_file_size := 10737418240 }

/-- The resolution of `scanning_config`: defaults when the source is
absent or fails to parse, otherwise the Python dict merge
`{**default_config['scanning'], **user_config.get('scanning', {})}` —
a per-key shallow override. -/
def mergedScanning : ConfigSource → ScanningOptions
  | .absent => defaultScanning
  | .parseError => defaultScanning
  | .parsed u =>
      { include_extensions := u.include_extensions.getD defaultScanning.include_extensions,
        exclude_directories := u.exclude_directories.getD defaultScanning.exclude_directories,
        min_file_size := u.min_file_size.getD defaultScanning.min_file_size,
        max_file_size := u.max_file_size.getD defaultScanning.max_file_size }

/-- `FileScanner._load_config`: resolve the scanning options, then build
the `ScanConfig`, lowercasing every extension. Only the four keys above
are read from the source; `follow_symlinks` and `ignore_hidden` always
come from the dataclass defaults. -/
def loadConfig (src : ConfigSource) : ScanConfig :=
  let sc := mergedScanning src
  { include_extensions := sc.include_extensions.map pyLower,
    exclude_directories := sc.exclude_directories,
    min_file_size := sc.min_file_size,
    max_file_size := sc.max_file_size }

/-! ## Concrete fixtures used by witnesses and counterexamples -/

/-- A permissive configuration: no extension filter, default excludes,
`min_file_size = 0`, `max_file_size` the 10 GiB default — the
end-to-end scenario configuration of the spec. -/
def e2eConfig : ScanConfig :=
  { include_extensions := [],
    exclude_directories := defaultScanning.exclude_directories,
    min_file_size := 0,
    max_file_size := 10737418240 }

/-- The end-to-end scenario tree: `a.txt` and `b.txt` of 12 bytes,
`c.txt` of 17 bytes, `image.jpg` of 15 bytes. -/
def e2eTree : FSEntry :=
  .dir "root" (.cons (.file "a.txt" 12 0)
    (.cons (.file "b.txt" 12 0)
      (.cons (.file "c.txt" 17 0)
        (.cons (.file "image.jpg" 15 0) .nil))))

/-- The bucket mapping the end-to-end scenario produces. -/
def e2eBuckets : List (Nat × List FileInfo) :=
  [(12, [⟨["root", "a.txt"], 12, 0, ".txt"⟩, ⟨["root", "b.txt"], 12, 0, ".txt"⟩]),
   (17, [⟨["root", "c.txt"], 17, 0, ".txt"⟩]),
   (15, [⟨["root", "image.jpg"], 15, 0, ".jpg"⟩])]

/-- A configuration with an extension filter, used to witness the
filter invariant. -/
def txtJpgConfig : ScanConfig :=
  { include_extensions := [".txt", ".jpg"],
    exclude_directories := ["venv"],
    min_file_size := 1,
    max_file_size := 10737418240 }

/-- A tree whose root contains a symbolic link to a directory holding
one ordinary file. -/
def symlinkTree : FSEntry :=
  .dir "root" (.cons (.symlinkDir "linked" (.cons (.file "inside.txt" 2048 0) .nil)) .nil)

/-- A scan root whose own basename (`venv`) is an excluded directory
name, holding one ordinary file. -/
def venvRootTree : FSEntry :=
  .dir "venv" (.cons (.file "cache.txt" 2048 0) .nil)

/-- A nonempty scanner state left over from an earlier scan, used to
observe that fatal root errors do not disturb it. -/
def staleState : ScannerState :=
  ⟨[(7, [⟨["old", "x.txt"], 7, 3, ".txt"⟩])], 1, 7⟩

/-- The record-level invariant of the grouping (claim C2): positive
size, size within the configured bounds, and — under a non-empty
extension filter — a recorded extension that passes the filter. -/
def RecordOk (cfg : ScanConfig) (fi : FileInfo) : Prop :=
  0 < fi.size ∧ cfg.min_file_size ≤ fi.size ∧ fi.size ≤ cfg.max_file_size ∧
    (cfg.include_extensions ≠ [] → fi.extension ∈ cfg.include_extensions)

/-- All records of all buckets of `m` satisfy `RecordOk`. -/
def BucketsOk (cfg : ScanConfig) (m : List (Nat × List FileInfo)) : Prop :=
  ∀ sz fs fi, (sz, fs) ∈ m → fi ∈ fs → RecordOk cfg fi

/-! ## Helper lemmas -/

/-- A file the eligibility check accepts has positive size, size within
the configured bounds, and, under a non-empty extension filter, a
lowercased suffix passing the filter. -/
theorem shouldIncludeFile_spec (cfg : ScanConfig) (name : String) (size : Nat)
    (h : shouldIncludeFile cfg name size = true) :
    0 < size ∧ cfg.min_file_size ≤ size ∧ size ≤ cfg.max_file_size ∧
      (cfg.include_extensions ≠ [] → pyLower (pySuffix name) ∈ cfg.include_extensions) := by
  unfold shouldIncludeFile at h
  split_ifs at h with h1 h2 h3 h4
  have hsize0 : size ≠ 0 := by simpa using h4
  have hrange : ¬(size < cfg.min_file_size) ∧ ¬(size > cfg.max_file_size) := by
    simpa [not_or] using h3
  refine ⟨Nat.pos_of_ne_zero hsize0, by omega, by omega, ?_⟩
  intro hne
  have hempty : cfg.include_extensions.isEmpty = false := by
    simpa [List.isEmpty_iff] using hne
  simp [hempty, List.contains, List.elem_iff] at h1
  exact h1

/-- Inserting a good record into an all-good bucket mapping keeps every
record good. -/
theorem bucketsOk_addToBucket (cfg : ScanConfig) (m : List (Nat × List FileInfo))
    (sz0 : Nat) (fi0 : FileInfo)
    (hm : BucketsOk cfg m) (hfi : RecordOk cfg fi0) :
    BucketsOk cfg (addToBucket m sz0 fi0) := by
  induction m with
  | nil =>
      intro sz fs fi hmem hfs
      simp [addToBucket] at hmem
      rcases hmem with ⟨rfl, rfl⟩
      simp at hfs
      subst hfs
      exact hfi
  | cons p rest ih =>
      obtain ⟨k, gs⟩ := p
      have hrest : BucketsOk cfg rest := fun sz fs fi hmem hfs =>
        hm sz fs fi (List.mem_cons_of_mem _ hmem) hfs
      have hhead : ∀ fi, fi ∈ gs → RecordOk cfg fi := fun fi hfs =>
        hm k gs fi (List.mem_cons_self _ _) hfs
      intro sz fs fi hmem hfs
      simp only [addToBucket] at hmem
      split at hmem
      · rcases List.mem_cons.mp hmem with heq | hmem'
        · rw [Prod.mk.injEq] at heq
          obtain ⟨rfl, rfl⟩ := heq
          rcases List.mem_append.mp hfs with hg | hg
          · exact hhead fi hg
          · rw [List.mem_singleton] at hg
            subst hg
            exact hfi
        · exact hrest sz fs fi hmem' hfs
      · rcases List.mem_cons.mp hmem with heq | hmem'
        · rw [Prod.mk.injEq] at heq
          obtain ⟨rfl, rfl⟩ := heq
          exact hhead fi hfs
        · exact ih hrest sz fs fi hmem' hfs

/-- `processFile` on an accepted file keeps every record good. -/
theorem bucketsOk_processFile (cfg : ScanConfig) (pref : List String) (name : String)
    (size mtime : Nat) (st : ScannerState)
    (hst : BucketsOk cfg st.files_by_size)
    (h : shouldIncludeFile cfg name size = true) :
    BucketsOk cfg (processFile pref name size mtime st).files_by_size := by
  have hs := shouldIncludeFile_spec cfg name size h
  exact bucketsOk_addToBucket cfg st.files_by_size size
    ⟨pref ++ [name], size, mtime, pyLower (pySuffix name)⟩ hst
    ⟨hs.1, hs.2.1, hs.2.2.1, hs.2.2.2⟩

mutual
/-- The walker preserves goodness of every record across one entry. -/
theorem scanEntry_bucketsOk (cfg : ScanConfig) (pref : List String) (st : ScannerState)
    (e : FSEntry) (hst : BucketsOk cfg st.files_by_size) :
    BucketsOk cfg (scanEntry cfg pref st e).files_by_size := by
  cases e with
  | file name size mtime =>
      simp only [scanEntry]
      split
      · exact bucketsOk_processFile cfg pref name size mtime st hst (by assumption)
      · exact hst
  | dir name children =>
      simp only [scanEntry]
      split
      · exact scanChildren_bucketsOk cfg (pref ++ [name]) st children hst
      · exact hst
  | symlinkDir name children =>
      simp only [scanEntry]
      split
      · exact scanChildren_bucketsOk cfg (pref ++ [name]) st children hst
      · exact hst

/-- The walker preserves goodness of every record across a listing. -/
theorem scanChildren_bucketsOk (cfg : ScanConfig) (pref : List String) (st : ScannerState)
    (es : FSList) (hst : BucketsOk cfg st.files_by_size) :
    BucketsOk cfg (scanChildren cfg pref st es).files_by_size := by
  cases es with
  | nil => simpa only [scanChildren] using hst
  | cons e es =>
      simp only [scanChildren]
      exact scanChildren_bucketsOk cfg pref _ es (scanEntry_bucketsOk cfg pref st e hst)
end

end SDH

namespace SDH

/-! ## Claims -/

/-- C1: the spec says symlinked directories are only recursed into when
`follow_symlinks` is true, but the walker never consults
`config.follow_symlinks` (`item.is_dir()` follows symlinks): with
`follow_symlinks = false` a file inside a symlinked directory is still
collected. -/
theorem symlinked_dir_recursed_despite_no_follow :
    txtJpgConfig.follow_symlinks = false ∧
    (scanDirectory txtJpgConfig ⟨[], 0, 0⟩ (some symlinkTree)).2 =
      .ok [(2048, [⟨["root", "linked", "inside.txt"], 2048, 0, ".txt"⟩])] :=
  ⟨rfl, rfl⟩

/-- C2: every record in the grouping returned by `scan_directory` has
positive size, size within the configured inclusive bounds, and — when
the extension filter is non-empty — an extension passing the filter. -/
theorem scanDirectory_grouping_invariant (cfg : ScanConfig) (st : ScannerState)
    (root : Option FSEntry) (g : List (Nat × List FileInfo))
    (hscan : (scanDirectory cfg st root).2 = Except.ok g) :
    ∀ sz fs fi, (sz, fs) ∈ g → fi ∈ fs →
      0 < fi.size ∧ cfg.min_file_size ≤ fi.size ∧ fi.size ≤ cfg.max_file_size ∧
        (cfg.include_extensions ≠ [] → fi.extension ∈ cfg.include_extensions) := by
  have hnil : BucketsOk cfg ([] : List (Nat × List FileInfo)) := by
    intro sz fs fi hmem _
    simp at hmem
  match root with
  | none => simp [scanDirectory] at hscan
  | some (.file _ _ _) => simp [scanDirectory] at hscan
  | some (.dir name children) =>
      have hg : (scanChildren cfg [name] ⟨[], 0, 0⟩ children).files_by_size = g := by
        simpa [scanDirectory] using hscan
      intro sz fs fi hmem hfi
      exact scanChildren_bucketsOk cfg [name] ⟨[], 0, 0⟩ children hnil sz fs fi (hg ▸ hmem) hfi
  | some (.symlinkDir name children) =>
      have hg : (scanChildren cfg [name] ⟨[], 0, 0⟩ children).files_by_size = g := by
        simpa [scanDirectory] using hscan
      intro sz fs fi hmem hfi
      exact scanChildren_bucketsOk cfg [name] ⟨[], 0, 0⟩ children hnil sz fs fi (hg ▸ hmem) hfi

/-- Witness for C2 at a concrete scan with a non-empty extension filter. -/
theorem scanDirectory_grouping_invariant_witness :
    (scanDirectory txtJpgConfig ⟨[], 0, 0⟩ (some e2eTree)).2 = Except.ok e2eBuckets ∧
    (0 < (12 : Nat) ∧ txtJpgConfig.min_file_size ≤ 12 ∧ (12 : Nat) ≤ txtJpgConfig.max_file_size ∧
      (txtJpgConfig.include_extensions ≠ [] →
        (".txt" : String) ∈ txtJpgConfig.include_extensions)) :=
  ⟨rfl,
   scanDirectory_grouping_invariant txtJpgConfig ⟨[], 0, 0⟩ (some e2eTree) e2eBuckets rfl
     12 [⟨["root", "a.txt"], 12, 0, ".txt"⟩, ⟨["root", "b.txt"], 12, 0, ".txt"⟩]
     ⟨["root", "a.txt"], 12, 0, ".txt"⟩ (by decide) (by decide)⟩

/-- C3: a zero-byte file is rejected by the eligibility check under
every configuration, even when `min_file_size = 0`. -/
theorem zero_size_file_always_rejected (cfg : ScanConfig) (name : String) :
    shouldIncludeFile cfg name 0 = false := by
  simp [shouldIncludeFile]

/-- C4 (counterexample to the claim as stated): a scan root whose own
basename is in `exclude_directories` is not pruned — the root is never
passed through the directory filter, so its files land in the buckets. -/
theorem excluded_root_dir_still_scanned :
    ("venv" : String) ∈ txtJpgConfig.exclude_directories ∧
    (scanDirectory txtJpgConfig ⟨[], 0, 0⟩ (some venvRootTree)).2 =
      .ok [(2048, [⟨["venv", "cache.txt"], 2048, 0, ".txt"⟩])] :=
  ⟨by decide, rfl⟩

/-- C4 (amended): every directory entry met during traversal — any
directory strictly below the scan root — whose basename is excluded is
pruned whole: the walker returns the accumulated state unchanged, so no
file under it or its descendants enters any bucket. -/
theorem excluded_directory_entry_pruned (cfg : ScanConfig) (pref : List String)
    (st : ScannerState) (name : String) (children : FSList)
    (h : cfg.exclude_directories.contains name = true) :
    scanEntry cfg pref st (.dir name children) = st ∧
    scanEntry cfg pref st (.symlinkDir name children) = st := by
  have hd : shouldIncludeDirectory cfg name = false := by
    have hmem : name ∈ cfg.exclude_directories := by
      simpa [List.contains, List.elem_iff] using h
    simp [shouldIncludeDirectory, hmem]
  constructor <;> simp [scanEntry, hd]

/-- Witness for the amended C4 at a concrete excluded subdirectory. -/
theorem excluded_directory_entry_pruned_witness :
    txtJpgConfig.exclude_directories.contains "venv" = true ∧
    scanEntry txtJpgConfig ["root"] staleState
      (.dir "venv" (.cons (.file "cache.txt" 2048 0) .nil)) = staleState :=
  ⟨rfl,
   (excluded_directory_entry_pruned txtJpgConfig ["root"] staleState "venv"
     (.cons (.file "cache.txt" 2048 0) .nil) rfl).1⟩

/-- C5: `get_potential_duplicates` returns exactly the sub-mapping of
buckets with two or more records. -/
theorem getPotentialDuplicates_mem_iff (m : List (Nat × List FileInfo))
    (sz : Nat) (fs : List FileInfo) :
    (sz, fs) ∈ getPotentialDuplicates m ↔ (sz, fs) ∈ m ∧ 2 ≤ fs.length := by
  simp only [getPotentialDuplicates, List.mem_filter, decide_eq_true_eq, gt_iff_lt]
  constructor
  · rintro ⟨h1, h2⟩
    exact ⟨h1, by omega⟩
  · rintro ⟨h1, h2⟩
    exact ⟨h1, by omega⟩

/-- C6: the candidate statistics are the sums over the candidate
subset — file count adds bucket lengths, byte total adds
`size × length` — and the end-to-end scenario yields count 2 and
byte total 24. -/
theorem candidate_statistics_e2e :
    (scanDirectory e2eConfig ⟨[], 0, 0⟩ (some e2eTree)).2 = .ok e2eBuckets ∧
    getPotentialDuplicates e2eBuckets =
      [(12, [⟨["root", "a.txt"], 12, 0, ".txt"⟩, ⟨["root", "b.txt"], 12, 0, ".txt"⟩])] ∧
    totalPotentialFiles e2eBuckets = 2 ∧
    totalPotentialSize e2eBuckets = 24 :=
  ⟨rfl, by decide, by decide, by decide⟩

/-- C7: `scan_directory` fails with the not-found error when the root
does not exist and with the not-a-directory error when it exists as a
file, in both cases returning before touching the scanner state. -/
theorem scanDirectory_root_validation :
    (∀ (cfg : ScanConfig) (st : ScannerState),
      scanDirectory cfg st none = (st, .error .fileNotFound)) ∧
    (∀ (cfg : ScanConfig) (st : ScannerState) (name : String) (size mtime : Nat),
      scanDirectory cfg st (some (.file name size mtime)) = (st, .error .notADirectory)) :=
  ⟨fun _ _ => rfl, fun _ _ _ _ _ => rfl⟩

/-- C8: when the source parses, the loaded options are the per-key
shallow merge of the defaults with the source — a present key replaces
the default wholesale (extensions are then lowercased), an absent key
keeps its default; supplying `include_extensions` replaces the whole
default list. -/
theorem loadConfig_shallow_merge (u : UserScanning) :
    (loadConfig (.parsed u)).include_extensions
        = (u.include_extensions.getD defaultScanning.include_extensions).map pyLower
    ∧ (loadConfig (.parsed u)).exclude_directories
        = u.exclude_directories.getD defaultScanning.exclude_directories
    ∧ (loadConfig (.parsed u)).min_file_size = u.min_file_size.getD defaultScanning.min_file_size
    ∧ (loadConfig (.parsed u)).max_file_size = u.max_file_size.getD defaultScanning.max_file_size
    ∧ (loadConfig (.parsed ⟨some [".X"], none, none, none⟩)).include_extensions = [".x"] :=
  ⟨rfl, rfl, rfl, rfl, by decide⟩

/-- C9: whatever the configuration source, the loaded `ScanConfig` has
`follow_symlinks = false` and `ignore_hidden = true` — the loader never
sets these two fields from the source. -/
theorem loadConfig_flags_fixed (src : ConfigSource) :
    (loadConfig src).follow_symlinks = false ∧ (loadConfig src).ignore_hidden = true :=
  ⟨rfl, rfl⟩

/-- C10: when `scan_directory` raises a fatal root-path error, the
scanner's accumulated state is exactly what it was before the call —
the accumulator reset happens only after root validation succeeds. -/
theorem scanDirectory_fatal_error_state_frame (cfg : ScanConfig) (st : ScannerState)
    (root : Option FSEntry) (e : ScanError)
    (h : (scanDirectory cfg st root).2 = .error e) :
    (scanDirectory cfg st root).1 = st := by
  match root with
  | none => rfl
  | some (.file _ _ _) => rfl
  | some (.dir n cs) => simp [scanDirectory] at h
  | some (.symlinkDir n cs) => simp [scanDirectory] at h

/-- Witness for C10 on a stale nonempty scanner state. -/
theorem scanDirectory_fatal_error_state_frame_witness :
    (scanDirectory e2eConfig staleState none).2 = .error .fileNotFound ∧
    (scanDirectory e2eConfig staleState none).1 = staleState :=
  ⟨rfl, scanDirectory_fatal_error_state_frame e2eConfig staleState none .fileNotFound rfl⟩

end SDH
